import Mathlib

/-!
# Verification of the turtle movement-pattern analyzer

A shallow embedding of `analyze_behavior.py`: the `TurtleBehaviorAnalyzer`
class (its sample buffer and its `analysis_results` dictionary), the
`analyze_movement_patterns` routine, and the seeded synthetic generator
`_generate_synthetic_data`.  Python floats are modelled as real numbers;
the three keys the code ever writes into `analysis_results`
(`avg_distance`, `min_distance`, `interaction_frequency`) are modelled as
three `Option` fields, `none` meaning the key is absent from the dict.
-/

namespace TurtleBehavior

/-- One tracking record, a row of the `tracking_data` table:
`timestamp` counts minutes since the fixed epoch 2024-01-01. -/
structure Sample where
  timestamp : ℕ
  turtle_id : String
  x_position : ℝ
  y_position : ℝ
  velocity : ℝ
  interaction_type : String

instance : Inhabited Sample := ⟨⟨0, "", 0, 0, 0, ""⟩⟩

/-- The `analysis_results` dictionary.  `__init__` sets it to `{}`; the only
writer is `analyze_movement_patterns`, which either sets all three keys or
none, so the dict is fully described by three optional fields
(`none` = key absent). -/
structure AnalysisResults where
  avg_distance : Option ℝ
  min_distance : Option ℝ
  interaction_frequency : Option ℕ

/-- The empty dictionary `{}` of `__init__`. -/
def emptyResults : AnalysisResults := ⟨none, none, none⟩

/-- The mutable state of a `TurtleBehaviorAnalyzer` instance. -/
structure TurtleBehaviorAnalyzer where
  species : String
  duration : String
  tracking_data : List Sample
  analysis_results : AnalysisResults

/-- `__init__(species, duration)`: empty sample buffer, empty results dict. -/
def init (species duration : String) : TurtleBehaviorAnalyzer :=
  ⟨species, duration, [], emptyResults⟩

/-- `load_data` (successful branch): replaces `self.tracking_data` with the
rows read from the source; `analysis_results` is untouched. -/
def load_data (s : TurtleBehaviorAnalyzer) (samples : List Sample) :
    TurtleBehaviorAnalyzer :=
  { s with tracking_data := samples }

/-- The rows of `tracking_data` whose `turtle_id` equals `'turtle_a'`,
in original order (`self.tracking_data[self.tracking_data['turtle_id'] == 'turtle_a']`). -/
def turtleASeries (s : TurtleBehaviorAnalyzer) : List Sample :=
  s.tracking_data.filter (fun r => r.turtle_id == "turtle_a")

/-- The rows of `tracking_data` whose `turtle_id` equals `'turtle_b'`. -/
def turtleBSeries (s : TurtleBehaviorAnalyzer) : List Sample :=
  s.tracking_data.filter (fun r => r.turtle_id == "turtle_b")

/-- The Euclidean distance the loop body computes:
`np.sqrt((xa - xb)**2 + (ya - yb)**2)`. -/
noncomputable def sampleDist (a b : Sample) : ℝ :=
  Real.sqrt ((a.x_position - b.x_position) ^ 2 + (a.y_position - b.y_position) ^ 2)

/-- The `distances` list built by the loop `for i in range(min(len(a), len(b)))`:
`List.zipWith` pairs the two filtered series positionally and stops at the
shorter one, exactly like the loop bound `min`. -/
noncomputable def distancesOf (s : TurtleBehaviorAnalyzer) : List ℝ :=
  List.zipWith sampleDist (turtleASeries s) (turtleBSeries s)

/-- `analyze_movement_patterns`: if both filtered series are non-empty,
store `np.mean(distances)`, `np.min(distances)` and
`len([d for d in distances if d < 10])` under the three keys; otherwise do
nothing (the dict keeps whatever it held). -/
noncomputable def analyze_movement_patterns (s : TurtleBehaviorAnalyzer) :
    TurtleBehaviorAnalyzer :=
  let turtle_a := turtleASeries s
  let turtle_b := turtleBSeries s
  if 0 < turtle_a.length ∧ 0 < turtle_b.length then
    let distances := List.zipWith sampleDist turtle_a turtle_b
    { s with analysis_results :=
      { avg_distance := some (distances.sum / (distances.length : ℝ))
        min_distance := some (distances.min?.getD 0)
        interaction_frequency :=
          some (distances.filter (fun d => decide (d < 10))).length } }
  else s

/-- One public operation on an analyzer instance, for reachability statements. -/
inductive AnalyzerOp where
  | loadOp (samples : List Sample)
  | analyzeOp

/-- Run one operation. -/
noncomputable def runOp (s : TurtleBehaviorAnalyzer) : AnalyzerOp → TurtleBehaviorAnalyzer
  | AnalyzerOp.loadOp samples => load_data s samples
  | AnalyzerOp.analyzeOp => analyze_movement_patterns s

/-- Run a sequence of operations left to right. -/
noncomputable def runOps (s : TurtleBehaviorAnalyzer) : List AnalyzerOp → TurtleBehaviorAnalyzer
  | [] => s
  | op :: ops => runOps (runOp s op) ops

/-! ## The synthetic generator

`_generate_synthetic_data` calls `np.random.seed(42)` and then draws from
numpy's global Mersenne Twister.  The twister is a deterministic function of
its state, and `np.random.seed` makes that state a function of the seed
alone, discarding whatever state was there before.  We model the global RNG
state as a value, seeding as the function that replaces it, and the value
streams of the four `np.random.*` calls as fixed (but arbitrary) functions
of the seeded state and the draw index.  The `gamma` stream is valued in
`ℝ≥0` because the Gamma(2, 0.5) distribution is supported on `[0, ∞)`. -/

/-- numpy's global RNG state. -/
structure GlobalRNG where
  state : ℕ

/-- `np.random.seed(seed)`: the new global state is a function of the seed
alone; the previous state is discarded. -/
def npRandomSeed (seed : ℕ) (_g : GlobalRNG) : GlobalRNG := ⟨seed⟩

/-- The deterministic value streams behind the `np.random.randn`,
`np.random.gamma(2, 0.5, _)` and the two `np.random.choice` calls: each
draw is a fixed function of the seeded state and the draw index. -/
structure NumpyDraws where
  randn : ℕ → ℕ → ℝ
  gamma : ℕ → ℕ → NNReal
  choice2 : ℕ → ℕ → Fin 2
  choice3 : ℕ → ℕ → Fin 3

/-- `n_points = 1000` in `_generate_synthetic_data`. -/
def n_points : ℕ := 1000

/-- `np.cumsum(np.random.randn(n) * 0.5) + 100` at index `i`: the partial sum
of the first `i + 1` scaled steps of a `randn` stream (the `y` call consumes
the draws after the `x` call's, hence the stream offset `base`), plus the
`100.0` starting offset. -/
noncomputable def cumsumPos (randn : ℕ → ℕ → ℝ) (st base i : ℕ) : ℝ :=
  ((List.range (i + 1)).map (fun j => randn st (base + j) * 0.5)).sum + 100

/-- `_generate_synthetic_data`: seed with 42, then build the `n_points`-row
table.  Row `i` gets timestamp `i` (minutes after the fixed epoch), a subject
label chosen per row, the `i`-th entries of the two cumulative-sum walks
(indexed by the global row index, independent of the label), a Gamma draw as
velocity, and an interaction label. -/
noncomputable def generate_synthetic_data (d : NumpyDraws) (g : GlobalRNG) :
    List Sample :=
  let g2 := npRandomSeed 42 g
  let st := g2.state
  (List.range n_points).map (fun i =>
    { timestamp := i
      turtle_id := if d.choice2 st i = 0 then "turtle_a" else "turtle_b"
      x_position := cumsumPos d.randn st 0 i
      y_position := cumsumPos d.randn st n_points i
      velocity := (d.gamma st i : ℝ)
      interaction_type :=
        if d.choice3 st i = 0 then "approach"
        else if d.choice3 st i = 1 then "avoid" else "neutral" })

/-! ## The spec's wording of the distance computation

`specDistances` is written from the spec's sentences: for `i` in
`0..k-1` with `k = min(len(seriesA), len(seriesB))`, the Euclidean distance
between the `i`-th samples.  The analyzer's `zipWith` loop is proved equal
to it below. -/

/-- The distance list as the spec words it, by index up to
`min` of the lengths. -/
noncomputable def specDistances (A B : List Sample) : List ℝ :=
  (List.range (min A.length B.length)).map
    (fun i => Real.sqrt (((A.getD i default).x_position - (B.getD i default).x_position) ^ 2 +
      ((A.getD i default).y_position - (B.getD i default).y_position) ^ 2))

/-- The rows whose subject id is one of the two literal ids the analyzer
looks at. -/
def restrictToAB (l : List Sample) : List Sample :=
  l.filter (fun p => p.turtle_id == "turtle_a" || p.turtle_id == "turtle_b")

/-! ## Concrete states used to instantiate the theorems -/

/-- A `turtle_a` sample at the origin. -/
def sampleA00 : Sample := ⟨0, "turtle_a", 0, 0, 0, "neutral"⟩

/-- A `turtle_b` sample at `(3, 4)`. -/
def sampleB34 : Sample := ⟨0, "turtle_b", 3, 4, 0, "neutral"⟩

/-- A `turtle_b` sample at the origin. -/
def sampleB00 : Sample := ⟨1, "turtle_b", 0, 0, 0, "neutral"⟩

/-- A `turtle_b` sample at `(10, 0)`. -/
def sampleB10 : Sample := ⟨0, "turtle_b", 10, 0, 0, "neutral"⟩

/-- A sample of a subject that is neither `turtle_a` nor `turtle_b`. -/
def sampleX : Sample := ⟨0, "turtle_x", 1, 1, 0, "neutral"⟩

/-- A second foreign-subject sample. -/
def sampleY : Sample := ⟨0, "turtle_y", 2, 2, 0, "neutral"⟩

/-- Analyzer holding one `turtle_a` sample at `(0,0)` and one `turtle_b`
sample at `(3,4)`. -/
def state34 : TurtleBehaviorAnalyzer :=
  ⟨"chelonia", "24h", [sampleA00, sampleB34], emptyResults⟩

/-- Analyzer holding one `turtle_a` sample at `(0,0)` and one `turtle_b`
sample at `(10,0)`: the aligned pair is exactly `10.0` apart. -/
def state10 : TurtleBehaviorAnalyzer :=
  ⟨"chelonia", "24h", [sampleA00, sampleB10], emptyResults⟩

/-- Analyzer holding two subjects with foreign ids only. -/
def stateXY : TurtleBehaviorAnalyzer :=
  ⟨"chelonia", "24h", [sampleX, sampleY], emptyResults⟩

/-- The state reached by: load two good samples, analyze, then load the
empty sequence. -/
noncomputable def staleState : TurtleBehaviorAnalyzer :=
  runOps (init "chelonia" "24h")
    [AnalyzerOp.loadOp [sampleA00, sampleB00], AnalyzerOp.analyzeOp,
      AnalyzerOp.loadOp []]

/-- Concrete draw streams for instantiating generator theorems. -/
def constDraws : NumpyDraws := ⟨fun _ _ => 0, fun _ _ => 1, fun _ _ => 0, fun _ _ => 0⟩

/-! ## Basic facts about `analyze_movement_patterns` -/

/-- The record the analyzer stores when both series are non-empty. -/
noncomputable def resultsFor (s : TurtleBehaviorAnalyzer) : AnalysisResults :=
  { avg_distance := some ((distancesOf s).sum / ((distancesOf s).length : ℝ))
    min_distance := some ((distancesOf s).min?.getD 0)
    interaction_frequency :=
      some ((distancesOf s).filter (fun d => decide (d < 10))).length }

theorem zipWith_sampleDist_eq_spec :
    ∀ (A B : List Sample), List.zipWith sampleDist A B = specDistances A B
  | [], B => by simp [specDistances]
  | a :: A, [] => by simp [specDistances]
  | a :: A, b :: B => by
    have ih := zipWith_sampleDist_eq_spec A B
    simp only [specDistances, List.length_cons, Nat.succ_min_succ,
      List.range_succ_eq_map, List.map_cons, List.map_map, List.getD_cons_zero,
      List.getD_cons_succ, Function.comp_def, List.zipWith_cons_cons, sampleDist] at ih ⊢
    rw [ih]

theorem analyze_eq_update (s : TurtleBehaviorAnalyzer)
    (h : 0 < (turtleASeries s).length ∧ 0 < (turtleBSeries s).length) :
    analyze_movement_patterns s = { s with analysis_results := resultsFor s } := by
  rw [analyze_movement_patterns]
  simp only []
  rw [if_pos h]
  rfl

theorem analyze_noop (s : TurtleBehaviorAnalyzer)
    (h : ¬ (0 < (turtleASeries s).length ∧ 0 < (turtleBSeries s).length)) :
    analyze_movement_patterns s = s := by
  rw [analyze_movement_patterns]
  simp only []
  rw [if_neg h]

theorem analyze_results_of_nonempty (s : TurtleBehaviorAnalyzer)
    (hA : turtleASeries s ≠ []) (hB : turtleBSeries s ≠ []) :
    (analyze_movement_patterns s).analysis_results = resultsFor s := by
  rw [analyze_eq_update s ⟨List.length_pos.mpr hA, List.length_pos.mpr hB⟩]

/-! ## The claims -/

/-- C1: for every loaded sample sequence in which both subject series are
non-empty, `analyze_movement_patterns` stores as the mean distance
(`avg_distance`) the arithmetic mean of the `k = min(len seriesA, len seriesB)`
positionally aligned Euclidean distances `sqrt((xA-xB)^2 + (yA-yB)^2)`, and
as the proximity-event count (`interaction_frequency`) the number of those
distances strictly less than `10.0`. -/
theorem C1_mean_and_proximity (s : TurtleBehaviorAnalyzer)
    (hA : turtleASeries s ≠ []) (hB : turtleBSeries s ≠ []) :
    (analyze_movement_patterns s).analysis_results.avg_distance =
      some ((specDistances (turtleASeries s) (turtleBSeries s)).sum /
        ((min (turtleASeries s).length (turtleBSeries s).length : ℕ) : ℝ)) ∧
    (analyze_movement_patterns s).analysis_results.interaction_frequency =
      some ((specDistances (turtleASeries s) (turtleBSeries s)).filter
        (fun d => decide (d < 10))).length := by
  have hd : distancesOf s = specDistances (turtleASeries s) (turtleBSeries s) :=
    zipWith_sampleDist_eq_spec _ _
  rw [analyze_results_of_nonempty s hA hB]
  constructor
  · simp only [resultsFor, hd, specDistances, List.length_map, List.length_range]
  · simp only [resultsFor, hd]

/-- C1 witness: the theorem instantiated at the two-sample state
`state34`. -/
theorem C1_mean_and_proximity_witness :
    (analyze_movement_patterns state34).analysis_results.avg_distance =
      some ((specDistances (turtleASeries state34) (turtleBSeries state34)).sum /
        ((min (turtleASeries state34).length (turtleBSeries state34).length : ℕ) : ℝ)) ∧
    (analyze_movement_patterns state34).analysis_results.interaction_frequency =
      some ((specDistances (turtleASeries state34) (turtleBSeries state34)).filter
        (fun d => decide (d < 10))).length :=
  C1_mean_and_proximity state34
    (by simp [turtleASeries, state34, sampleA00, sampleB34])
    (by simp [turtleBSeries, state34, sampleA00, sampleB34])

/-- C3: whenever `k = min(len seriesA, len seriesB) = 0`,
`analyze_movement_patterns` is a silent no-op: it raises nothing (it is a
total function) and leaves the whole analyzer state, in particular the
results dictionary, unchanged. -/
theorem C3_noop_of_k_zero (s : TurtleBehaviorAnalyzer)
    (h : min (turtleASeries s).length (turtleBSeries s).length = 0) :
    analyze_movement_patterns s = s := by
  apply analyze_noop
  intro hc
  omega

/-- C3 witness: the theorem instantiated at the freshly initialized
analyzer, whose two series are empty. -/
theorem C3_noop_of_k_zero_witness :
    min (turtleASeries (init "chelonia" "24h")).length
      (turtleBSeries (init "chelonia" "24h")).length = 0 ∧
    analyze_movement_patterns (init "chelonia" "24h") = init "chelonia" "24h" :=
  ⟨rfl, C3_noop_of_k_zero _ rfl⟩

/-- C4: the synthetic generator is deterministic.  Seeding makes the RNG
state a function of the seed alone, so two runs (from arbitrary prior
global RNG states `g1`, `g2`) produce identical sample sequences, and
analyzing each of the two sequences yields identical results. -/
theorem C4_generator_deterministic (d : NumpyDraws) (g1 g2 : GlobalRNG) :
    generate_synthetic_data d g1 = generate_synthetic_data d g2 ∧
    (analyze_movement_patterns (load_data (init "chelonia" "24h")
        (generate_synthetic_data d g1))).analysis_results =
      (analyze_movement_patterns (load_data (init "chelonia" "24h")
        (generate_synthetic_data d g2))).analysis_results :=
  ⟨rfl, rfl⟩

/-- C8: `analyze_movement_patterns` is idempotent: a second call on the same
loaded samples recomputes and stores exactly the values of the first call,
leaving the state fixed. -/
theorem C8_analyze_idempotent (s : TurtleBehaviorAnalyzer) :
    analyze_movement_patterns (analyze_movement_patterns s) =
      analyze_movement_patterns s := by
  by_cases h : 0 < (turtleASeries s).length ∧ 0 < (turtleBSeries s).length
  · rw [analyze_eq_update s h]
    exact analyze_eq_update _ h
  · rw [analyze_noop s h]
    exact analyze_noop s h

/-- A list of reals is bounded below, element-wise, by any common lower
bound times its length. -/
theorem mul_length_le_sum (l : List ℝ) (m : ℝ) (h : ∀ x ∈ l, m ≤ x) :
    m * l.length ≤ l.sum := by
  induction l with
  | nil => simp
  | cons x xs ih =>
    simp only [List.length_cons, List.sum_cons]
    push_cast
    have hxs := ih (fun y hy => h y (List.mem_cons_of_mem _ hy))
    have hx := h x (List.mem_cons_self _ _)
    nlinarith

/-- C5: for series of equal length `k ≥ 1`, the stored minimum distance is
at most the stored mean distance, and the stored proximity-event count is
at most `k`. -/
theorem C5_min_le_mean_and_count_le_k (s : TurtleBehaviorAnalyzer) (k : ℕ)
    (hk : 1 ≤ k) (hA : (turtleASeries s).length = k)
    (hB : (turtleBSeries s).length = k) :
    ∃ m μ c,
      (analyze_movement_patterns s).analysis_results.min_distance = some m ∧
      (analyze_movement_patterns s).analysis_results.avg_distance = some μ ∧
      (analyze_movement_patterns s).analysis_results.interaction_frequency = some c ∧
      m ≤ μ ∧ c ≤ k := by
  have hA' : turtleASeries s ≠ [] := by
    intro h0
    rw [h0] at hA
    simp at hA
    omega
  have hB' : turtleBSeries s ≠ [] := by
    intro h0
    rw [h0] at hB
    simp at hB
    omega
  have hlen : (distancesOf s).length = k := by
    simp [distancesOf, List.length_zipWith, hA, hB]
  have hlne : distancesOf s ≠ [] := by
    intro h0
    rw [h0] at hlen
    simp at hlen
    omega
  obtain ⟨m, hm⟩ : ∃ m, (distancesOf s).min? = some m := by
    cases hl2 : distancesOf s with
    | nil => exact absurd hl2 hlne
    | cons x xs => exact ⟨_, List.min?_cons⟩
  rw [analyze_results_of_nonempty s hA' hB']
  refine ⟨m, (distancesOf s).sum / ((distancesOf s).length : ℝ),
    ((distancesOf s).filter (fun d => decide (d < 10))).length,
    by simp [resultsFor, hm], rfl, rfl, ?_, ?_⟩
  · have hub : ∀ x ∈ distancesOf s, m ≤ x := by
      intro x hx
      exact (List.le_min?_iff (fun a b c => le_min_iff) hm).mp le_rfl x hx
    have hpos : (0 : ℝ) < ((distancesOf s).length : ℝ) := by
      rw [hlen]
      exact_mod_cast hk
    rw [le_div_iff₀ hpos]
    exact mul_length_le_sum _ m hub
  · rw [← hlen]
    exact List.length_filter_le _ _

/-- C5 witness: the theorem instantiated at `state34` with `k = 1`. -/
theorem C5_min_le_mean_witness :
    1 ≤ 1 ∧ (turtleASeries state34).length = 1 ∧ (turtleBSeries state34).length = 1 ∧
    ∃ m μ c,
      (analyze_movement_patterns state34).analysis_results.min_distance = some m ∧
      (analyze_movement_patterns state34).analysis_results.avg_distance = some μ ∧
      (analyze_movement_patterns state34).analysis_results.interaction_frequency = some c ∧
      m ≤ μ ∧ c ≤ 1 :=
  ⟨le_rfl, rfl, rfl, C5_min_le_mean_and_count_le_k state34 1 le_rfl rfl rfl⟩

/-- C6 (general part): with exactly one sample per subject, the stored mean
and minimum both equal the single computed distance, and the proximity count
is `1` exactly when that distance is below the threshold. -/
theorem C6_k_one_mean_eq_min (s : TurtleBehaviorAnalyzer) (a b : Sample)
    (hA : turtleASeries s = [a]) (hB : turtleBSeries s = [b]) :
    (analyze_movement_patterns s).analysis_results.avg_distance = some (sampleDist a b) ∧
    (analyze_movement_patterns s).analysis_results.min_distance = some (sampleDist a b) ∧
    (analyze_movement_patterns s).analysis_results.interaction_frequency =
      some (if sampleDist a b < 10 then 1 else 0) := by
  have hd : distancesOf s = [sampleDist a b] := by
    simp [distancesOf, hA, hB]
  rw [analyze_results_of_nonempty s (by simp [hA]) (by simp [hB])]
  refine ⟨?_, ?_, ?_⟩
  · simp [resultsFor, hd]
  · simp [resultsFor, hd]
  · simp only [resultsFor, hd, List.filter_cons, List.filter_nil]
    by_cases h10 : sampleDist a b < 10
    · simp [h10]
    · simp [h10]

/-- The distance between `(0,0)` and `(3,4)` is exactly `5`. -/
theorem sampleDist_34 : sampleDist sampleA00 sampleB34 = 5 := by
  have h : (sampleA00.x_position - sampleB34.x_position) ^ 2 +
      (sampleA00.y_position - sampleB34.y_position) ^ 2 = 5 ^ 2 := by
    norm_num [sampleA00, sampleB34]
  rw [sampleDist, h, Real.sqrt_sq (by norm_num : (0:ℝ) ≤ 5)]

/-- C6 witness: subject A at `(0,0)`, subject B at `(3,4)`, `k = 1`:
the stored mean and minimum are exactly `5.0` and the proximity count
is `1`. -/
theorem C6_k_one_witness :
    (analyze_movement_patterns state34).analysis_results.avg_distance = some 5 ∧
    (analyze_movement_patterns state34).analysis_results.min_distance = some 5 ∧
    (analyze_movement_patterns state34).analysis_results.interaction_frequency = some 1 := by
  have h := C6_k_one_mean_eq_min state34 sampleA00 sampleB34 rfl rfl
  rw [sampleDist_34, if_pos (by norm_num : (5:ℝ) < 10)] at h
  exact h

/-- C7: the proximity threshold is strict: if every aligned pair is at
distance exactly `10.0`, the stored proximity-event count is `0`. -/
theorem C7_strict_threshold (s : TurtleBehaviorAnalyzer)
    (hA : turtleASeries s ≠ []) (hB : turtleBSeries s ≠ [])
    (hall : ∀ d ∈ distancesOf s, d = 10) :
    (analyze_movement_patterns s).analysis_results.interaction_frequency = some 0 := by
  rw [analyze_results_of_nonempty s hA hB]
  have hnil : (distancesOf s).filter (fun d => decide (d < 10)) = [] := by
    apply List.filter_eq_nil_iff.mpr
    intro d hd
    rw [hall d hd]
    norm_num
  simp [resultsFor, hnil]

/-- The distance between `(0,0)` and `(10,0)` is exactly `10`. -/
theorem sampleDist_10 : sampleDist sampleA00 sampleB10 = 10 := by
  have h : (sampleA00.x_position - sampleB10.x_position) ^ 2 +
      (sampleA00.y_position - sampleB10.y_position) ^ 2 = 10 ^ 2 := by
    norm_num [sampleA00, sampleB10]
  rw [sampleDist, h, Real.sqrt_sq (by norm_num : (0:ℝ) ≤ 10)]

/-- C7 witness: two aligned points exactly `10.0` apart yield a proximity
count of `0`. -/
theorem C7_strict_threshold_witness :
    (analyze_movement_patterns state10).analysis_results.interaction_frequency = some 0 :=
  C7_strict_threshold state10
    (by simp [turtleASeries, state10, sampleA00, sampleB10])
    (by simp [turtleBSeries, state10, sampleA00, sampleB10])
    (by
      intro d hd
      rw [show distancesOf state10 = [sampleDist sampleA00 sampleB10] from rfl] at hd
      simp only [List.mem_singleton] at hd
      rw [hd, sampleDist_10])

/-- C2 counterexample: the state reached by load, analyze, load-empty has a
fully populated summary while the stored samples contain no two distinct
subject ids (they are empty), so the invariant as stated over all reachable
states fails. -/
theorem C2_populated_counterexample :
    (staleState.analysis_results.avg_distance).isSome = true ∧
    (staleState.analysis_results.min_distance).isSome = true ∧
    (staleState.analysis_results.interaction_frequency).isSome = true ∧
    ¬ ∃ id1 id2 : String, id1 ≠ id2 ∧
      (∃ p ∈ staleState.tracking_data, p.turtle_id = id1) ∧
      (∃ q ∈ staleState.tracking_data, q.turtle_id = id2) := by
  refine ⟨rfl, rfl, rfl, ?_⟩
  rintro ⟨id1, id2, hne, ⟨p, hp, _⟩, _⟩
  rw [show staleState.tracking_data = [] from rfl] at hp
  exact List.not_mem_nil p hp

/-- C2 (amended): starting from an analyzer whose summary is empty, one
load followed by `analyze_movement_patterns` populates the summary only
when two distinct subject ids are present, each with at least one sample;
otherwise every summary field stays absent. -/
theorem C2_amended_single_analysis (s0 : TurtleBehaviorAnalyzer)
    (h0 : s0.analysis_results = emptyResults) (samples : List Sample) :
    ((analyze_movement_patterns (load_data s0 samples)).analysis_results ≠ emptyResults →
      ∃ id1 id2 : String, id1 ≠ id2 ∧
        (∃ p ∈ samples, p.turtle_id = id1) ∧ (∃ q ∈ samples, q.turtle_id = id2)) ∧
    ((¬ ∃ id1 id2 : String, id1 ≠ id2 ∧
        (∃ p ∈ samples, p.turtle_id = id1) ∧ (∃ q ∈ samples, q.turtle_id = id2)) →
      (analyze_movement_patterns (load_data s0 samples)).analysis_results = emptyResults) := by
  have key : (analyze_movement_patterns (load_data s0 samples)).analysis_results ≠ emptyResults →
      ∃ id1 id2 : String, id1 ≠ id2 ∧
        (∃ p ∈ samples, p.turtle_id = id1) ∧ (∃ q ∈ samples, q.turtle_id = id2) := by
    intro hne
    by_cases hc : 0 < (turtleASeries (load_data s0 samples)).length ∧
        0 < (turtleBSeries (load_data s0 samples)).length
    · obtain ⟨ha, hb⟩ := hc
      obtain ⟨p, hp⟩ := List.exists_mem_of_ne_nil _ (List.length_pos.mp ha)
      obtain ⟨q, hq⟩ := List.exists_mem_of_ne_nil _ (List.length_pos.mp hb)
      have hp' := List.mem_filter.mp hp
      have hq' := List.mem_filter.mp hq
      exact ⟨"turtle_a", "turtle_b", by decide,
        ⟨p, hp'.1, eq_of_beq hp'.2⟩, ⟨q, hq'.1, eq_of_beq hq'.2⟩⟩
    · rw [analyze_noop _ hc] at hne
      exact absurd h0 hne
  refine ⟨key, fun hno => ?_⟩
  by_contra hne
  exact hno (key hne)

/-- C2 witness: the amended theorem instantiated at a fresh analyzer with
one `turtle_a` sample and zero `turtle_b` samples. -/
theorem C2_amended_witness :
    (init "chelonia" "24h").analysis_results = emptyResults ∧
    (((analyze_movement_patterns (load_data (init "chelonia" "24h") [sampleA00])).analysis_results
        ≠ emptyResults →
      ∃ id1 id2 : String, id1 ≠ id2 ∧
        (∃ p ∈ [sampleA00], p.turtle_id = id1) ∧ (∃ q ∈ [sampleA00], q.turtle_id = id2)) ∧
    ((¬ ∃ id1 id2 : String, id1 ≠ id2 ∧
        (∃ p ∈ [sampleA00], p.turtle_id = id1) ∧ (∃ q ∈ [sampleA00], q.turtle_id = id2)) →
      (analyze_movement_patterns (load_data (init "chelonia" "24h") [sampleA00])).analysis_results
        = emptyResults)) :=
  ⟨rfl, C2_amended_single_analysis (init "chelonia" "24h") rfl [sampleA00]⟩

/-- C9: the generator produces exactly `1000` samples; row `i` carries
timestamp `i` (one-minute spacing from the fixed epoch); its `x` and `y`
coordinates are the cumulative sums, over the global row index, of the
scaled step draws offset by `100.0` (the `y` walk consuming the draws after
the `x` walk's); and every velocity, being a Gamma draw, is non-negative. -/
theorem C9_generator_shape (d : NumpyDraws) (g : GlobalRNG) :
    (generate_synthetic_data d g).length = 1000 ∧
    (∀ i, i < 1000 →
      ((generate_synthetic_data d g).getD i default).timestamp = i ∧
      ((generate_synthetic_data d g).getD i default).x_position =
        ((List.range (i + 1)).map (fun j => d.randn 42 j * 0.5)).sum + 100 ∧
      ((generate_synthetic_data d g).getD i default).y_position =
        ((List.range (i + 1)).map (fun j => d.randn 42 (n_points + j) * 0.5)).sum + 100 ∧
      0 ≤ ((generate_synthetic_data d g).getD i default).velocity) := by
  constructor
  · simp [generate_synthetic_data, n_points]
  · intro i hi
    have hget : (generate_synthetic_data d g).getD i default =
        { timestamp := i
          turtle_id := if d.choice2 42 i = 0 then "turtle_a" else "turtle_b"
          x_position := cumsumPos d.randn 42 0 i
          y_position := cumsumPos d.randn 42 n_points i
          velocity := (d.gamma 42 i : ℝ)
          interaction_type :=
            if d.choice3 42 i = 0 then "approach"
            else if d.choice3 42 i = 1 then "avoid" else "neutral" } := by
      rw [generate_synthetic_data]
      simp only [npRandomSeed]
      rw [List.getD_eq_getElem?_getD, List.getElem?_map, List.getElem?_range
        (by simpa [n_points] using hi)]
      rfl
    rw [hget]
    refine ⟨rfl, ?_, ?_, NNReal.coe_nonneg _⟩
    · simp [cumsumPos]
    · simp [cumsumPos]

/-- C9 witness: the theorem instantiated at concrete draw streams and row
`0`. -/
theorem C9_generator_shape_witness :
    (generate_synthetic_data constDraws ⟨0⟩).length = 1000 ∧
    (((generate_synthetic_data constDraws ⟨0⟩).getD 0 default).timestamp = 0 ∧
     ((generate_synthetic_data constDraws ⟨0⟩).getD 0 default).x_position =
       ((List.range 1).map (fun j => constDraws.randn 42 j * 0.5)).sum + 100 ∧
     ((generate_synthetic_data constDraws ⟨0⟩).getD 0 default).y_position =
       ((List.range 1).map (fun j => constDraws.randn 42 (n_points + j) * 0.5)).sum + 100 ∧
     0 ≤ ((generate_synthetic_data constDraws ⟨0⟩).getD 0 default).velocity) :=
  ⟨(C9_generator_shape constDraws ⟨0⟩).1,
    (C9_generator_shape constDraws ⟨0⟩).2 0 (by norm_num)⟩

/-- C10: the analyzer selects its two series by the literal subject ids
`turtle_a` and `turtle_b` only: rows with any other id never affect the
stored results, and if no row carries either literal id the call is a no-op,
even when two distinct foreign subjects are present. -/
theorem C10_literal_ids_only (s : TurtleBehaviorAnalyzer) :
    (analyze_movement_patterns s).analysis_results =
      (analyze_movement_patterns
        { s with tracking_data := restrictToAB s.tracking_data }).analysis_results ∧
    ((∀ p ∈ s.tracking_data, p.turtle_id ≠ "turtle_a" ∧ p.turtle_id ≠ "turtle_b") →
      analyze_movement_patterns s = s) := by
  constructor
  · have hA : turtleASeries { s with tracking_data := restrictToAB s.tracking_data } =
        turtleASeries s := by
      show (restrictToAB s.tracking_data).filter
          (fun r => r.turtle_id == "turtle_a") = s.tracking_data.filter
          (fun r => r.turtle_id == "turtle_a")
      rw [restrictToAB, List.filter_filter]
      congr 1
      funext p
      cases h1 : (p.turtle_id == "turtle_a") <;> cases h2 : (p.turtle_id == "turtle_b") <;>
        simp [h1, h2]
    have hB : turtleBSeries { s with tracking_data := restrictToAB s.tracking_data } =
        turtleBSeries s := by
      show (restrictToAB s.tracking_data).filter
          (fun r => r.turtle_id == "turtle_b") = s.tracking_data.filter
          (fun r => r.turtle_id == "turtle_b")
      rw [restrictToAB, List.filter_filter]
      congr 1
      funext p
      cases h1 : (p.turtle_id == "turtle_a") <;> cases h2 : (p.turtle_id == "turtle_b") <;>
        simp [h1, h2]
    by_cases hc : 0 < (turtleASeries s).length ∧ 0 < (turtleBSeries s).length
    · rw [analyze_eq_update s hc, analyze_eq_update _ (by rw [hA, hB]; exact hc)]
      simp only [resultsFor, distancesOf, hA, hB]
    · rw [analyze_noop s hc, analyze_noop _ (by rw [hA, hB]; exact hc)]
  · intro hnone
    have hA0 : turtleASeries s = [] := by
      apply List.filter_eq_nil_iff.mpr
      intro p hp hbeq
      exact (hnone p hp).1 (eq_of_beq hbeq)
    apply analyze_noop
    intro hc
    rw [hA0] at hc
    simp at hc

/-- C10 witness: the theorem instantiated at a state holding two distinct
foreign subjects, on which the analyzer is a no-op (the summary stays
empty). -/
theorem C10_literal_ids_only_witness :
    ((analyze_movement_patterns stateXY).analysis_results =
      (analyze_movement_patterns
        { stateXY with tracking_data := restrictToAB stateXY.tracking_data }).analysis_results ∧
    ((∀ p ∈ stateXY.tracking_data, p.turtle_id ≠ "turtle_a" ∧ p.turtle_id ≠ "turtle_b") →
      analyze_movement_patterns stateXY = stateXY)) ∧
    analyze_movement_patterns stateXY = stateXY :=
  ⟨C10_literal_ids_only stateXY,
    (C10_literal_ids_only stateXY).2 (by
      intro p hp
      fin_cases hp <;> simp [sampleX, sampleY])⟩

end TurtleBehavior
